import Mathlib

/-!
Shallow embedding of the ticket / live-chat hand-off workflow of the
support-portal web application.

The embedded operations come from:
* `src/components/admin/TicketManagement.tsx`
  (`handleAcceptTicketAndStartChat`, `handleSaveEdit`);
* `src/components/ProfileSettings.tsx`
  (the live-chat session snapshot handler with its access check and
  consultant-join write, `handleSendMessage`, `handleEndChat`);
* `src/components/customer/SupportTickets.tsx` (the customer auto-redirect
  effect).

Firestore documents are modelled as records, the two collections as lists
inside a `World` record, asynchronous store calls as explicit fault flags
(one per store call that the code awaits), toasts as a list of records, the
navigation side effect as an `Option View`, and an `await` that is not
wrapped in any `try`/`catch` as an `unhandledRejection` flag on the
operation's result.
-/

namespace SupportPortal

/-- Values of `Ticket.status`: "pending" | "in-progress" | "resolved". -/
inductive TStatus
  | pending
  | inProgress
  | resolved
deriving DecidableEq, Repr

/-- Values of `Ticket.priority`: "low" | "medium" | "high". -/
inductive Priority
  | low
  | medium
  | high
deriving DecidableEq, Repr

/-- Values of `LiveChatSession.status`: "open" | "in-progress" | "closed". -/
inductive SStatus
  | open_
  | inProgress
  | closed
deriving DecidableEq, Repr

/-- User roles stored in the `users` collection. -/
inductive Role
  | customer
  | admin
deriving DecidableEq, Repr

/-- A ticket document of the `support_tickets` collection
(interface `Ticket` in `TicketManagement.tsx`). -/
structure Ticket where
  id : Nat
  title : String
  description : String
  status : TStatus
  priority : Priority
  customerId : Nat
  liveChatId : Option Nat := none
deriving DecidableEq, Repr

/-- A live-chat session document of the `liveChats` collection
(interface `LiveChatSession` in `ProfileSettings.tsx`).  Timestamps are
abstract `Nat` instants. -/
structure Session where
  id : Nat
  ticketId : Option Nat
  customerId : Nat
  consultantId : Option Nat
  status : SStatus
  createdAt : Nat
  startedAt : Option Nat
  lastMessageAt : Nat
  closedAt : Option Nat := none
deriving DecidableEq, Repr

/-- A message of a session's `messages` subcollection
(interface `LiveChatMessage` in `ProfileSettings.tsx`). -/
structure ChatMessage where
  senderId : Nat
  senderRole : Role
  text : String
  timestamp : Nat
deriving DecidableEq, Repr

/-- A `toast(...)` call: user-visible notification. -/
structure Toast where
  title : String
  description : String
  variant : String
deriving DecidableEq, Repr

/-- Views reachable through navigation side effects
(`onNavigateToView` / `navigate`). -/
inductive View
  | liveChat (sessionId : Nat)
  | supportPortal
  | dashboard
  | knowledge
deriving DecidableEq, Repr

/-- The two Firestore collections the workflow reads and writes.
`nextSessionId` models Firestore's id assignment for `addDoc`. -/
structure World where
  tickets : List Ticket
  sessions : List Session
  nextSessionId : Nat
deriving DecidableEq, Repr

/-- Result of one Coordinator operation: the stores afterwards, the toasts
shown, the navigation issued, and whether an awaited store call rejected
outside of every `try`/`catch` (an unhandled rejection). -/
structure OpResult where
  world : World
  toasts : List Toast
  navigation : Option View
  unhandledRejection : Bool
deriving DecidableEq, Repr

/-- Embedding of `getDocs(query(collection(db, 'liveChats'), where('ticketId','==',tid)))`:
all sessions whose `ticketId` equals `tid`, with no condition on status. -/
def sessionsForTicket (w : World) (tid : Nat) : List Session :=
  w.sessions.filter (fun s => s.ticketId == some tid)

/-- Embedding of an `updateDoc` on the ticket document with id `tid`. -/
def updateMatchingTicket (w : World) (tid : Nat) (upd : Ticket → Ticket) : World :=
  { w with tickets := w.tickets.map (fun tk => if tk.id = tid then upd tk else tk) }

/-- Embedding of an `updateDoc` on the session document with id `sid`. -/
def updateMatchingSession (w : World) (sid : Nat) (upd : Session → Session) : World :=
  { w with sessions := w.sessions.map (fun s => if s.id = sid then upd s else s) }

/- Toasts of `TicketManagement.tsx`. -/

def authRequiredToast : Toast :=
  ⟨"Authentication Required", "You must be logged in to accept tickets.", "destructive"⟩

def chatAlreadyActiveToast : Toast :=
  ⟨"Chat Already Active", "A live chat for this ticket already exists. Joining existing chat.", "info"⟩

def liveChatCreatedToast (tid : Nat) : Toast :=
  ⟨"Live Chat Created!", "Live chat started for Ticket #" ++ toString tid ++ ".", "success"⟩

def startChatFailedToast : Toast :=
  ⟨"Error", "Failed to start live chat. Check console for permissions.", "destructive"⟩

def ticketAcceptedToast (tid : Nat) : Toast :=
  ⟨"Ticket Accepted!", "Ticket #" ++ toString tid ++ " is now in progress.", "success"⟩

def ticketUpdateFailedToast : Toast :=
  ⟨"Error", "Failed to update ticket status in database.", "destructive"⟩

def ticketUpdatedToast (tid : Nat) : Toast :=
  ⟨"Ticket Updated!", "Ticket #" ++ toString tid ++ " has been updated.", "success"⟩

def ticketEditFailedToast : Toast :=
  ⟨"Error", "Failed to update ticket.", "destructive"⟩

/-- Fault flags for the three awaited store calls of
`handleAcceptTicketAndStartChat`: the `getDocs` session query, the `addDoc`
session creation, the `updateDoc` on the ticket. -/
structure AcceptFaults where
  queryFails : Bool := false
  createFails : Bool := false
  updateFails : Bool := false
deriving DecidableEq, Repr

/-- The tail of `handleAcceptTicketAndStartChat` once `liveChatId` is known:
`updateDoc(ticketRef, { status: 'in-progress', liveChatId })` inside its own
`try`/`catch`, then `onNavigateToView` on success. -/
def acceptTicketUpdate (w : World) (t : Ticket) (chatId : Nat)
    (preToasts : List Toast) (f : AcceptFaults) : OpResult :=
  if f.updateFails then
    { world := w, toasts := preToasts ++ [ticketUpdateFailedToast],
      navigation := none, unhandledRejection := false }
  else
    { world := updateMatchingTicket w t.id
        (fun tk => { tk with status := TStatus.inProgress, liveChatId := some chatId }),
      toasts := preToasts ++ [ticketAcceptedToast t.id],
      navigation := some (View.liveChat chatId),
      unhandledRejection := false }

/-- Embedding of `handleAcceptTicketAndStartChat` (TicketManagement.tsx).  `appId` models
the `APP_ID` env constant being defined, `currentUser` is
`auth.currentUser?.uid`.  The initial `getDocs` query is awaited outside of
every `try`/`catch`, so its failure is an unhandled rejection; the snapshot's
`docs[0]` is the head of the filtered list; on the empty path the created
session carries `consultantId: auth.currentUser.uid` and `status: 'open'`. -/
def handleAcceptTicketAndStartChat (w : World) (appId : Bool)
    (currentUser : Option Nat) (t : Ticket) (f : AcceptFaults) (now : Nat) : OpResult :=
  match currentUser with
  | none =>
    { world := w, toasts := [authRequiredToast], navigation := none, unhandledRejection := false }
  | some uid =>
    if !appId then
      { world := w, toasts := [authRequiredToast], navigation := none, unhandledRejection := false }
    else if f.queryFails then
      { world := w, toasts := [], navigation := none, unhandledRejection := true }
    else
      match (sessionsForTicket w t.id).head? with
      | some s =>
        acceptTicketUpdate w t s.id [chatAlreadyActiveToast] f
      | none =>
        if f.createFails then
          { world := w, toasts := [startChatFailedToast],
            navigation := none, unhandledRejection := false }
        else
          let newSession : Session :=
            { id := w.nextSessionId, ticketId := some t.id, customerId := t.customerId,
              consultantId := some uid, status := SStatus.open_, createdAt := now,
              startedAt := some now, lastMessageAt := now, closedAt := none }
          acceptTicketUpdate
            { w with sessions := w.sessions ++ [newSession],
                     nextSessionId := w.nextSessionId + 1 }
            t newSession.id [liveChatCreatedToast t.id] f

/-- The fields written by the edit dialog of `handleSaveEdit`. -/
structure EditFields where
  title : String
  description : String
  status : TStatus
  priority : Priority
deriving DecidableEq, Repr

/-- Embedding of `handleSaveEdit` (TicketManagement.tsx): writes title, description,
status and priority of the edited ticket verbatim, inside a `try`/`catch`. -/
def handleSaveEdit (w : World) (appId : Bool) (currentEditing : Option Ticket)
    (e : EditFields) (updateFails : Bool) : OpResult :=
  match currentEditing with
  | none => { world := w, toasts := [], navigation := none, unhandledRejection := false }
  | some t =>
    if !appId then
      { world := w, toasts := [], navigation := none, unhandledRejection := false }
    else if updateFails then
      { world := w, toasts := [ticketEditFailedToast], navigation := none,
        unhandledRejection := false }
    else
      { world := updateMatchingTicket w t.id (fun tk =>
          { tk with title := e.title, description := e.description,
                    status := e.status, priority := e.priority }),
        toasts := [ticketUpdatedToast t.id], navigation := none,
        unhandledRejection := false }

/- Toasts of `ProfileSettings.tsx` (LiveChatInterface). -/

def accessDeniedToast : Toast :=
  ⟨"Access Denied", "You do not have permission to view this chat session.", "destructive"⟩

def chatNotFoundToast : Toast :=
  ⟨"Chat Not Found", "The live chat session does not exist or has been deleted.", "destructive"⟩

def authPendingToast : Toast :=
  ⟨"Authentication Pending", "Please wait for user authentication to complete.", "warning"⟩

def chatNotReadyToast : Toast :=
  ⟨"Chat Not Ready", "Please wait for the chat session to load before sending messages.", "warning"⟩

def sendFailedToast : Toast :=
  ⟨"Error", "Failed to send message. Check console for permissions.", "destructive"⟩

def permissionDeniedToast : Toast :=
  ⟨"Permission Denied", "Only a consultant can close this chat.", "warning"⟩

def chatEndedToast : Toast :=
  ⟨"Chat Ended!", "Live chat session has been closed and ticket resolved.", "success"⟩

def endChatFailedToast : Toast :=
  ⟨"Error", "Failed to end chat session. Check console for permissions.", "destructive"⟩

/-- The guard of the consultant-join write in the session snapshot handler:
`currentUserRole === 'admin' && sessionData.status === 'open' &&
!sessionData.consultantId`. -/
def joinGuard (role : Role) (s : Session) : Bool :=
  role == Role.admin && s.status == SStatus.open_ && s.consultantId == none

/-- The consultant-join `updateDoc`:
`{ consultantId: currentUserUid, startedAt: serverTimestamp(), status: 'in-progress' }`. -/
def joinEffect (uid : Nat) (now : Nat) (s : Session) : Session :=
  { s with consultantId := some uid, startedAt := some now, status := SStatus.inProgress }

/-- Result of one delivery of the session `onSnapshot` callback in
`LiveChatInterface`: toasts, navigation, the session retained in component
state (`setLiveChatSession`), and the consultant-join write, if issued. -/
structure SnapshotResult where
  toasts : List Toast
  navigation : Option View
  retainedSession : Option Session
  joinWrite : Option Session
deriving DecidableEq, Repr

/-- The session `onSnapshot` callback of `LiveChatInterface` (ProfileSettings.tsx):
missing document → Chat-Not-Found and navigate away; acting user neither the
session's customer nor its consultant → Access-Denied, navigate away, return
before the session is retained; otherwise retain the session and, when
`joinGuard` holds, issue the consultant-join write. -/
def sessionSnapshotStep (uid : Nat) (role : Role) (docSnap : Option Session)
    (now : Nat) : SnapshotResult :=
  match docSnap with
  | none =>
    { toasts := [chatNotFoundToast], navigation := some View.supportPortal,
      retainedSession := none, joinWrite := none }
  | some s =>
    if s.customerId ≠ uid ∧ s.consultantId ≠ some uid then
      { toasts := [accessDeniedToast], navigation := some View.supportPortal,
        retainedSession := none, joinWrite := none }
    else
      { toasts := [], navigation := none, retainedSession := some s,
        joinWrite := if joinGuard role s then some (joinEffect uid now s) else none }

/-- The messages effect of `LiveChatInterface` subscribes to the `messages`
subcollection only when a session is retained in component state
(`liveChatSession?.id` non-null). -/
def messagesSubscribed (r : SnapshotResult) : Bool :=
  r.retainedSession.isSome

/-- The session-document writes issued anywhere in the program, as updates of
a single session record: the consultant-join write of the snapshot handler,
the closing write of `handleEndChat`, and the `lastMessageAt` write of
`handleSendMessage`. -/
inductive SessionOp
  | consultantJoins (uid : Nat) (role : Role) (now : Nat)
  | closeSession (now : Nat)
  | touchLastMessage (now : Nat)
deriving DecidableEq, Repr

/-- Apply one session-document write (its closing / message-touch forms taken
unconditionally, a superset of the guarded calls in the handlers). -/
def applySessionOp (op : SessionOp) (s : Session) : Session :=
  match op with
  | SessionOp.consultantJoins uid role now => if joinGuard role s then joinEffect uid now s else s
  | SessionOp.closeSession now => { s with status := SStatus.closed, closedAt := some now }
  | SessionOp.touchLastMessage now => { s with lastMessageAt := now }

/-- Fault flags for the two awaited store calls of `handleSendMessage`:
the `addDoc` message append and the `updateDoc` of `lastMessageAt`. -/
structure SendFaults where
  appendFails : Bool := false
  touchFails : Bool := false
deriving DecidableEq, Repr

/-- Result of `handleSendMessage`: the stores, the session's message
subcollection, toasts, and the unhandled-rejection flag. -/
structure SendResult where
  world : World
  messages : List ChatMessage
  toasts : List Toast
  unhandledRejection : Bool
deriving DecidableEq, Repr

/-- Embedding of `handleSendMessage` (ProfileSettings.tsx): `messageText` is the trimmed
input (`inputValue.trim()` happens first in the handler); guards on empty
text, on pending authentication and on a missing session; then, inside one
`try`/`catch`, appends the message and updates the session's
`lastMessageAt`. -/
def handleSendMessage (w : World) (messageText : String) (isAuthLoading : Bool)
    (uid : Option Nat) (role : Option Role) (sess : Option Session)
    (msgs : List ChatMessage) (f : SendFaults) (now : Nat) : SendResult :=
  if messageText = "" then
    { world := w, messages := msgs, toasts := [], unhandledRejection := false }
  else
    match uid, role with
    | some u, some r =>
      if isAuthLoading then
        { world := w, messages := msgs, toasts := [authPendingToast], unhandledRejection := false }
      else
        match sess with
        | none =>
          { world := w, messages := msgs, toasts := [chatNotReadyToast], unhandledRejection := false }
        | some s =>
          if f.appendFails then
            { world := w, messages := msgs, toasts := [sendFailedToast], unhandledRejection := false }
          else
            if f.touchFails then
              { world := w,
                messages := msgs ++ [{ senderId := u, senderRole := r,
                                       text := messageText, timestamp := now }],
                toasts := [sendFailedToast], unhandledRejection := false }
            else
              { world := updateMatchingSession w s.id (fun ss => { ss with lastMessageAt := now }),
                messages := msgs ++ [{ senderId := u, senderRole := r,
                                       text := messageText, timestamp := now }],
                toasts := [], unhandledRejection := false }
    | _, _ =>
      { world := w, messages := msgs, toasts := [authPendingToast], unhandledRejection := false }

/-- Fault flags for the two awaited `updateDoc` calls of `handleEndChat`:
the session-closing write and the ticket-resolving write. -/
structure EndFaults where
  sessionUpdateFails : Bool := false
  ticketUpdateFails : Bool := false
deriving DecidableEq, Repr

/-- Embedding of `handleEndChat` (ProfileSettings.tsx): silently returns when the session
is missing, the user id is missing or the session is already closed; shows a
Permission-Denied toast for non-admins; asks for confirmation; then, inside
one `try`/`catch`, writes `{ status: 'closed', closedAt: now }` on the
session and, when `ticketId` is set, `{ status: 'resolved' }` on the ticket,
and navigates on full success. -/
def handleEndChat (w : World) (sess : Option Session) (uid : Option Nat)
    (role : Option Role) (confirmed : Bool) (f : EndFaults) (now : Nat) : OpResult :=
  match sess, uid with
  | none, _ =>
    { world := w, toasts := [], navigation := none, unhandledRejection := false }
  | _, none =>
    { world := w, toasts := [], navigation := none, unhandledRejection := false }
  | some s, some _ =>
    if s.status = SStatus.closed then
      { world := w, toasts := [], navigation := none, unhandledRejection := false }
    else if role ≠ some Role.admin then
      { world := w, toasts := [permissionDeniedToast], navigation := none,
        unhandledRejection := false }
    else if !confirmed then
      { world := w, toasts := [], navigation := none, unhandledRejection := false }
    else if f.sessionUpdateFails then
      { world := w, toasts := [endChatFailedToast], navigation := none,
        unhandledRejection := false }
    else
      let w1 := updateMatchingSession w s.id
        (fun ss => { ss with status := SStatus.closed, closedAt := some now })
      match s.ticketId with
      | some tid =>
        if f.ticketUpdateFails then
          { world := w1, toasts := [endChatFailedToast], navigation := none,
            unhandledRejection := false }
        else
          { world := updateMatchingTicket w1 tid (fun tk => { tk with status := TStatus.resolved }),
            toasts := [chatEndedToast],
            navigation := some (if role = some Role.admin then View.dashboard else View.knowledge),
            unhandledRejection := false }
      | none =>
        { world := w1, toasts := [chatEndedToast],
          navigation := some (if role = some Role.admin then View.dashboard else View.knowledge),
          unhandledRejection := false }

/-- The redirect predicate of the customer auto-redirect effect in
`SupportTickets.tsx`: the ticket is owned by the current user, is
in-progress and carries a `liveChatId`. -/
def redirectMatch (u : Nat) (t : Ticket) : Bool :=
  t.customerId == u && t.status == TStatus.inProgress && t.liveChatId.isSome

/-- The customer auto-redirect effect of `SupportTickets.tsx`: with a logged-in
user and a non-empty ticket list, `find` the first matching ticket and, unless
the current location already is that ticket's live-chat view, issue one
navigation to it. -/
def supportRedirect (tickets : List Ticket) (uid : Option Nat)
    (current : Option View) : List View :=
  match uid with
  | none => []
  | some u =>
    if tickets.isEmpty then []
    else
      match tickets.find? (redirectMatch u) with
      | none => []
      | some m =>
        match m.liveChatId with
        | none => []
        | some cid =>
          if current = some (View.liveChat cid) then []
          else [View.liveChat cid]

/-- Rank of a ticket status along pending → in-progress → resolved. -/
def statusRank : TStatus → Nat
  | TStatus.pending => 0
  | TStatus.inProgress => 1
  | TStatus.resolved => 2

/-- All store calls succeed. -/
def noFaults : AcceptFaults := {}

/-- All end-chat store calls succeed. -/
def noEndFaults : EndFaults := {}

/-- End-chat faults where only the ticket-resolving write rejects. -/
def ticketFailEndFaults : EndFaults := { sessionUpdateFails := false, ticketUpdateFails := true }

/-- The session document `addDoc` of the Accept path creates. -/
def freshSession (w : World) (uid : Nat) (t : Ticket) (now : Nat) : Session :=
  { id := w.nextSessionId, ticketId := some t.id, customerId := t.customerId,
    consultantId := some uid, status := SStatus.open_, createdAt := now,
    startedAt := some now, lastMessageAt := now, closedAt := none }

/- Concrete fixtures used by counterexamples and witnesses. -/

/-- A pending ticket owned by customer 2, with no session back-reference. -/
def sampleTicket : Ticket :=
  { id := 1, title := "Printer broken", description := "Paper keeps jamming",
    status := TStatus.pending, priority := Priority.medium, customerId := 2,
    liveChatId := none }

/-- A world holding only `sampleTicket` and no session. -/
def world0 : World := { tickets := [sampleTicket], sessions := [], nextSessionId := 10 }

/-- A closed session for ticket 1. -/
def closedSession : Session :=
  { id := 5, ticketId := some 1, customerId := 2, consultantId := some 3,
    status := SStatus.closed, createdAt := 0, startedAt := some 0,
    lastMessageAt := 0, closedAt := some 4 }

/-- A world where ticket 1 is pending but a closed session for it exists. -/
def worldClosed : World :=
  { tickets := [sampleTicket], sessions := [closedSession], nextSessionId := 10 }

/- Helper lemmas shared by several developments. -/

/-- The ticket-update tail of Accept never touches the session collection. -/
lemma acceptTicketUpdate_world_sessions (w : World) (t : Ticket) (chatId : Nat)
    (preToasts : List Toast) (f : AcceptFaults) :
    (acceptTicketUpdate w t chatId preToasts f).world.sessions = w.sessions := by
  unfold acceptTicketUpdate updateMatchingTicket
  split <;> rfl

/-- The ticket-update tail of Accept never changes `nextSessionId`. -/
lemma acceptTicketUpdate_world_nextSessionId (w : World) (t : Ticket) (chatId : Nat)
    (preToasts : List Toast) (f : AcceptFaults) :
    (acceptTicketUpdate w t chatId preToasts f).world.nextSessionId = w.nextSessionId := by
  unfold acceptTicketUpdate updateMatchingTicket
  split <;> rfl

/-- On the fault-free path, the ticket-update tail of Accept is the
in-progress write plus the success toast and the navigation. -/
lemma acceptTicketUpdate_noFaults (w : World) (t : Ticket) (chatId : Nat)
    (preToasts : List Toast) :
    acceptTicketUpdate w t chatId preToasts noFaults =
      { world := updateMatchingTicket w t.id
          (fun tk => { tk with status := TStatus.inProgress, liveChatId := some chatId }),
        toasts := preToasts ++ [ticketAcceptedToast t.id],
        navigation := some (View.liveChat chatId),
        unhandledRejection := false } := by
  unfold acceptTicketUpdate
  rfl

/-- Accept on a ticket with no session at all, fault-free: the full result. -/
lemma accept_fresh_spec (w : World) (uid : Nat) (t : Ticket) (now : Nat)
    (hempty : sessionsForTicket w t.id = []) :
    handleAcceptTicketAndStartChat w true (some uid) t noFaults now =
      { world := { tickets := w.tickets.map (fun tk => if tk.id = t.id then { tk with status := TStatus.inProgress, liveChatId := some w.nextSessionId } else tk),
                   sessions := w.sessions ++ [freshSession w uid t now],
                   nextSessionId := w.nextSessionId + 1 },
        toasts := [liveChatCreatedToast t.id, ticketAcceptedToast t.id],
        navigation := some (View.liveChat w.nextSessionId),
        unhandledRejection := false } := by
  unfold handleAcceptTicketAndStartChat
  rw [hempty]
  simp only [List.head?_nil]
  rw [show noFaults.queryFails = false from rfl]
  simp only [Bool.not_true, if_false, ite_false, Bool.false_eq_true]
  rw [show noFaults.createFails = false from rfl]
  simp only [ite_false, Bool.false_eq_true]
  rw [acceptTicketUpdate_noFaults]
  rfl

/-- Accept when the (status-blind) lookup finds a first session, fault-free:
the session is reused, no session is created. -/
lemma accept_reuse_spec (w : World) (uid : Nat) (t : Ticket) (now : Nat) (s : Session)
    (hs : (sessionsForTicket w t.id).head? = some s) :
    handleAcceptTicketAndStartChat w true (some uid) t noFaults now =
      { world := updateMatchingTicket w t.id
          (fun tk => { tk with status := TStatus.inProgress, liveChatId := some s.id }),
        toasts := [chatAlreadyActiveToast, ticketAcceptedToast t.id],
        navigation := some (View.liveChat s.id),
        unhandledRejection := false } := by
  unfold handleAcceptTicketAndStartChat
  rw [hs]
  rw [show noFaults.queryFails = false from rfl]
  simp only [Bool.not_true, ite_false, Bool.false_eq_true]
  rw [acceptTicketUpdate_noFaults]
  rfl

/-- C1 — the counterexample input: accepting the pending `sampleTicket` in a
world with no session, as admin 7, creates a session whose `consultantId` is
`some 7` (the accepting admin), not `none` as the claim states. -/
theorem acceptNewSessionStaffedCounterexample :
    ((handleAcceptTicketAndStartChat world0 true (some 7) sampleTicket noFaults 100).world.sessions.map
        Session.consultantId = [some 7]) ∧
    ¬ ((handleAcceptTicketAndStartChat world0 true (some 7) sampleTicket noFaults 100).world.sessions.map
        Session.consultantId = [none]) ∧
    ((handleAcceptTicketAndStartChat world0 true (some 7) sampleTicket noFaults 100).world.sessions.map
        Session.status = [SStatus.open_]) := by
  decide

/-- C1 (amended) — when an admin accepts a ticket that has no live-chat
session, a new session is created with status 'open', `ticketId` the
ticket's id, `customerId` the ticket's `customerId`, and `consultantId` the
accepting admin's own id (the session starts staffed, not null). -/
theorem accept_creates_open_session_staffed_by_acceptor
    (w : World) (uid : Nat) (t : Ticket) (now : Nat)
    (hempty : sessionsForTicket w t.id = []) :
    (handleAcceptTicketAndStartChat w true (some uid) t noFaults now).world.sessions =
      w.sessions ++
        [{ id := w.nextSessionId, ticketId := some t.id, customerId := t.customerId,
           consultantId := some uid, status := SStatus.open_, createdAt := now,
           startedAt := some now, lastMessageAt := now, closedAt := none }] := by
  rw [accept_fresh_spec w uid t now hempty]
  rfl

/-- Witness for the amended C1 theorem at the concrete `world0`. -/
theorem accept_creates_open_session_staffed_by_acceptor_witness :
    sessionsForTicket world0 sampleTicket.id = [] ∧
    (handleAcceptTicketAndStartChat world0 true (some 7) sampleTicket noFaults 100).world.sessions =
      world0.sessions ++
        [{ id := world0.nextSessionId, ticketId := some sampleTicket.id,
           customerId := sampleTicket.customerId, consultantId := some 7,
           status := SStatus.open_, createdAt := 100, startedAt := some 100,
           lastMessageAt := 100, closedAt := none }] :=
  ⟨by decide,
   accept_creates_open_session_staffed_by_acceptor world0 7 sampleTicket 100 (by decide)⟩

/-- C2 — the counterexample input: in `worldClosed` the only session for
ticket 1 is closed, yet Accept reuses it instead of creating a fresh one:
the session list is unchanged, the reuse toast is shown first, and the
navigation targets the closed session. -/
theorem acceptReusesClosedSessionCounterexample :
    (handleAcceptTicketAndStartChat worldClosed true (some 7) sampleTicket noFaults 100).world.sessions
        = [closedSession] ∧
    closedSession.status = SStatus.closed ∧
    (handleAcceptTicketAndStartChat worldClosed true (some 7) sampleTicket noFaults 100).toasts.head?
        = some chatAlreadyActiveToast ∧
    (handleAcceptTicketAndStartChat worldClosed true (some 7) sampleTicket noFaults 100).navigation
        = some (View.liveChat closedSession.id) := by
  decide

/-- C2 (amended) — the find-before-create lookup of Accept filters on
`ticketId` only, with no condition on status: whenever the lookup returns a
first session — whatever its status, closed included — Accept reuses it and
creates no new session. -/
theorem accept_lookup_ignores_status
    (w : World) (uid : Nat) (t : Ticket) (now : Nat) (s : Session)
    (hs : (sessionsForTicket w t.id).head? = some s) :
    sessionsForTicket w t.id = w.sessions.filter (fun ss => ss.ticketId == some t.id) ∧
    (handleAcceptTicketAndStartChat w true (some uid) t noFaults now).world.sessions = w.sessions ∧
    (handleAcceptTicketAndStartChat w true (some uid) t noFaults now).navigation =
      some (View.liveChat s.id) := by
  refine ⟨rfl, ?_, ?_⟩
  · rw [accept_reuse_spec w uid t now s hs]
    rfl
  · rw [accept_reuse_spec w uid t now s hs]

/-- Witness for the amended C2 theorem at the concrete `worldClosed`. -/
theorem accept_lookup_ignores_status_witness :
    (sessionsForTicket worldClosed sampleTicket.id).head? = some closedSession ∧
    ((sessionsForTicket worldClosed sampleTicket.id =
        worldClosed.sessions.filter (fun ss => ss.ticketId == some sampleTicket.id)) ∧
     (handleAcceptTicketAndStartChat worldClosed true (some 7) sampleTicket noFaults 100).world.sessions =
        worldClosed.sessions ∧
     (handleAcceptTicketAndStartChat worldClosed true (some 7) sampleTicket noFaults 100).navigation =
        some (View.liveChat closedSession.id)) :=
  ⟨by decide,
   accept_lookup_ignores_status worldClosed 7 sampleTicket 100 closedSession (by decide)⟩

/-- The head of a list is a member of it. -/
lemma mem_of_head_eq {α : Type} {l : List α} {a : α} (h : l.head? = some a) : a ∈ l := by
  cases l with
  | nil => simp at h
  | cons x xs => simp_all [List.head?]

/-- A resolved ticket, same identity as `sampleTicket`. -/
def resolvedTicket : Ticket := { sampleTicket with status := TStatus.resolved }

/-- A world holding only the resolved ticket. -/
def worldResolved : World := { tickets := [resolvedTicket], sessions := [], nextSessionId := 10 }

/-- An edit-dialog state whose selected status is "pending". -/
def regressEdit : EditFields :=
  { title := "Printer broken", description := "Paper keeps jamming",
    status := TStatus.pending, priority := Priority.medium }

/-- C3 — the counterexample input: saving the edit dialog on the resolved
ticket 1 with the status selector on "pending" issues a write that moves the
ticket's status from resolved back to pending: a regression. -/
theorem saveEditRegressesStatusCounterexample :
    resolvedTicket.status = TStatus.resolved ∧
    ((handleSaveEdit worldResolved true (some resolvedTicket) regressEdit false).world.tickets.map
        Ticket.status) = [TStatus.pending] ∧
    statusRank TStatus.pending < statusRank TStatus.resolved := by
  decide

/-- An update of the ticket with id `tid` whose status write never lowers
`statusRank` on the tickets it can hit yields a pointwise-forward ticket list. -/
lemma updateMatchingTicket_forward (w : World) (tid : Nat) (upd : Ticket → Ticket)
    (h : ∀ tk ∈ w.tickets, tk.id = tid → statusRank tk.status ≤ statusRank (upd tk).status) :
    List.Forall₂ (fun old new => statusRank old.status ≤ statusRank new.status)
      w.tickets (updateMatchingTicket w tid upd).tickets := by
  unfold updateMatchingTicket
  rw [List.forall₂_map_right_iff]
  rw [List.forall₂_same]
  intro x hx
  by_cases hid : x.id = tid
  · rw [if_pos hid]
    exact h x hx hid
  · rw [if_neg hid]

/-- An unchanged ticket list is pointwise forward. -/
lemma forall₂_statusRank_refl (l : List Ticket) :
    List.Forall₂ (fun old new => statusRank old.status ≤ statusRank new.status) l l :=
  List.forall₂_same.mpr (fun _ _ => le_refl _)

/-- C3 (amended) — the Accept operation (on tickets whose stored status is
not yet resolved, the only tickets its button is offered for) and the
End-chat operation only issue forward ticket-status writes along
pending → in-progress → resolved; the admin edit dialog (`handleSaveEdit`),
however, writes the selected status verbatim and can regress a ticket, e.g.
resolved back to pending. -/
theorem accept_and_endchat_ticket_writes_monotonic
    (w : World) (appId : Bool) (cu : Option Nat) (t : Ticket) (f : AcceptFaults) (now : Nat)
    (w2 : World) (sess : Option Session) (uid2 : Option Nat) (role2 : Option Role)
    (confirmed : Bool) (g : EndFaults) (now2 : Nat)
    (hnr : ∀ tk ∈ w.tickets, tk.id = t.id → tk.status ≠ TStatus.resolved) :
    List.Forall₂ (fun old new => statusRank old.status ≤ statusRank new.status)
        w.tickets (handleAcceptTicketAndStartChat w appId cu t f now).world.tickets ∧
    List.Forall₂ (fun old new => statusRank old.status ≤ statusRank new.status)
        w2.tickets (handleEndChat w2 sess uid2 role2 confirmed g now2).world.tickets ∧
    (handleSaveEdit worldResolved true (some resolvedTicket) regressEdit false).world.tickets.map
        Ticket.status = [TStatus.pending] := by
  have hforward : ∀ (w' : World) (cid : Nat),
      (∀ tk ∈ w'.tickets, tk.id = t.id → tk.status ≠ TStatus.resolved) →
      List.Forall₂ (fun old new => statusRank old.status ≤ statusRank new.status)
        w'.tickets (updateMatchingTicket w' t.id
          (fun tk => { tk with status := TStatus.inProgress, liveChatId := some cid })).tickets := by
    intro w' cid h
    apply updateMatchingTicket_forward
    intro tk htk hid
    have hnres := h tk htk hid
    cases hst : tk.status with
    | pending => simp [statusRank]
    | inProgress => simp [statusRank]
    | resolved => exact absurd hst hnres
  refine ⟨?_, ?_, by decide⟩
  · unfold handleAcceptTicketAndStartChat
    cases cu with
    | none => exact forall₂_statusRank_refl _
    | some uid =>
      by_cases hap : appId
      · simp only [hap, Bool.not_true, Bool.false_eq_true, if_false]
        by_cases hq : f.queryFails
        · simp only [hq, if_true]
          exact forall₂_statusRank_refl _
        · simp only [hq, Bool.false_eq_true, if_false]
          cases hhd : (sessionsForTicket w t.id).head? with
          | some s =>
            unfold acceptTicketUpdate
            by_cases hu : f.updateFails
            · simp only [hu, if_true]
              exact forall₂_statusRank_refl _
            · simp only [hu, Bool.false_eq_true, if_false]
              exact hforward w s.id hnr
          | none =>
            by_cases hc : f.createFails
            · simp only [hc, if_true]
              exact forall₂_statusRank_refl _
            · simp only [hc, Bool.false_eq_true, if_false]
              unfold acceptTicketUpdate
              by_cases hu : f.updateFails
              · simp only [hu, if_true]
                exact forall₂_statusRank_refl _
              · simp only [hu, Bool.false_eq_true, if_false]
                exact hforward _ w.nextSessionId hnr
      · simp only [hap]
        exact forall₂_statusRank_refl _
  · unfold handleEndChat
    repeat' split
    all_goals
      first
        | exact forall₂_statusRank_refl _
        | · apply updateMatchingTicket_forward
            intro tk _ _
            cases tk.status <;> simp [statusRank]

/-- Witness for the amended C3 theorem at the concrete `world0`. -/
theorem accept_and_endchat_ticket_writes_monotonic_witness :
    (∀ tk ∈ world0.tickets, tk.id = sampleTicket.id → tk.status ≠ TStatus.resolved) ∧
    (List.Forall₂ (fun old new => statusRank old.status ≤ statusRank new.status)
        world0.tickets
        (handleAcceptTicketAndStartChat world0 true (some 7) sampleTicket noFaults 100).world.tickets ∧
     List.Forall₂ (fun old new => statusRank old.status ≤ statusRank new.status)
        worldClosed.tickets
        (handleEndChat worldClosed (some closedSession) (some 3) (some Role.admin) true noEndFaults 200).world.tickets ∧
     (handleSaveEdit worldResolved true (some resolvedTicket) regressEdit false).world.tickets.map
        Ticket.status = [TStatus.pending]) :=
  ⟨by decide,
   accept_and_endchat_ticket_writes_monotonic world0 true (some 7) sampleTicket noFaults 100
     worldClosed (some closedSession) (some 3) (some Role.admin) true noEndFaults 200 (by decide)⟩

/-- Applying the Accept ticket-write twice is the same as applying it once. -/
lemma acceptWrite_idem (l : List Ticket) (tid cid : Nat) :
    (l.map (fun tk => if tk.id = tid then { tk with status := TStatus.inProgress, liveChatId := some cid } else tk)).map
        (fun tk => if tk.id = tid then { tk with status := TStatus.inProgress, liveChatId := some cid } else tk)
      = l.map (fun tk => if tk.id = tid then { tk with status := TStatus.inProgress, liveChatId := some cid } else tk) := by
  rw [List.map_map]
  apply List.map_congr_left
  intro a _
  obtain ⟨aid, atitle, adesc, ast, apr, acid, alc⟩ := a
  by_cases h : aid = tid
  · simp [Function.comp, h]
  · simp [Function.comp, h]

/-- Any ticket with the accepted id holds the written fields after the
Accept ticket-write. -/
lemma acceptWrite_fields (l : List Ticket) (tid cid : Nat) (tk : Ticket)
    (htk : tk ∈ l.map (fun a => if a.id = tid then { a with status := TStatus.inProgress, liveChatId := some cid } else a))
    (hid : tk.id = tid) :
    tk.status = TStatus.inProgress ∧ tk.liveChatId = some cid := by
  rcases List.mem_map.mp htk with ⟨a, _, rfl⟩
  by_cases h : a.id = tid
  · simp [h]
  · rw [if_neg h] at hid ⊢
    exact absurd hid h

/-- C4 — Accept is idempotent: after a first fault-free Accept on a ticket
with no prior session, a second fault-free Accept on the same ticket (by any
admin) leaves the stores untouched — no additional session, exactly one
session for the ticket, every copy of the ticket still in-progress and
back-referencing that session — while the reuse path still issues the ticket
update (success toast and navigation included). -/
theorem accept_second_call_is_noop
    (w : World) (uid uid2 : Nat) (t t2 : Ticket) (now now2 : Nat)
    (hempty : sessionsForTicket w t.id = [])
    (ht2 : t2.id = t.id) :
    (handleAcceptTicketAndStartChat
        (handleAcceptTicketAndStartChat w true (some uid) t noFaults now).world
        true (some uid2) t2 noFaults now2).world.sessions =
      (handleAcceptTicketAndStartChat w true (some uid) t noFaults now).world.sessions ∧
    (handleAcceptTicketAndStartChat
        (handleAcceptTicketAndStartChat w true (some uid) t noFaults now).world
        true (some uid2) t2 noFaults now2).world.tickets =
      (handleAcceptTicketAndStartChat w true (some uid) t noFaults now).world.tickets ∧
    sessionsForTicket
      (handleAcceptTicketAndStartChat
        (handleAcceptTicketAndStartChat w true (some uid) t noFaults now).world
        true (some uid2) t2 noFaults now2).world t.id = [freshSession w uid t now] ∧
    (∀ tk ∈ (handleAcceptTicketAndStartChat
        (handleAcceptTicketAndStartChat w true (some uid) t noFaults now).world
        true (some uid2) t2 noFaults now2).world.tickets,
       tk.id = t.id → tk.status = TStatus.inProgress ∧ tk.liveChatId = some w.nextSessionId) ∧
    (handleAcceptTicketAndStartChat
        (handleAcceptTicketAndStartChat w true (some uid) t noFaults now).world
        true (some uid2) t2 noFaults now2).toasts =
      [chatAlreadyActiveToast, ticketAcceptedToast t2.id] ∧
    (handleAcceptTicketAndStartChat
        (handleAcceptTicketAndStartChat w true (some uid) t noFaults now).world
        true (some uid2) t2 noFaults now2).navigation =
      some (View.liveChat w.nextSessionId) := by
  have h1 := accept_fresh_spec w uid t now hempty
  have hfil : w.sessions.filter (fun s => s.ticketId == some t.id) = [] := hempty
  have h2 : sessionsForTicket (handleAcceptTicketAndStartChat w true (some uid) t noFaults now).world t.id
      = [freshSession w uid t now] := by
    rw [h1]
    unfold sessionsForTicket
    rw [List.filter_append, hfil]
    simp [freshSession]
  have hhead : (sessionsForTicket (handleAcceptTicketAndStartChat w true (some uid) t noFaults now).world t2.id).head?
      = some (freshSession w uid t now) := by
    rw [ht2, h2]
    rfl
  have h3 := accept_reuse_spec
    ((handleAcceptTicketAndStartChat w true (some uid) t noFaults now).world)
    uid2 t2 now2 (freshSession w uid t now) hhead
  have hw2 : (handleAcceptTicketAndStartChat
        (handleAcceptTicketAndStartChat w true (some uid) t noFaults now).world
        true (some uid2) t2 noFaults now2).world =
      updateMatchingTicket (handleAcceptTicketAndStartChat w true (some uid) t noFaults now).world
        t2.id (fun tk => { tk with status := TStatus.inProgress, liveChatId := some w.nextSessionId }) := by
    rw [h3]
    rfl
  have htick : (handleAcceptTicketAndStartChat w true (some uid) t noFaults now).world.tickets
      = w.tickets.map (fun tk => if tk.id = t.id then { tk with status := TStatus.inProgress, liveChatId := some w.nextSessionId } else tk) := by
    rw [h1]
  have htick2 : (handleAcceptTicketAndStartChat
        (handleAcceptTicketAndStartChat w true (some uid) t noFaults now).world
        true (some uid2) t2 noFaults now2).world.tickets =
      (handleAcceptTicketAndStartChat w true (some uid) t noFaults now).world.tickets := by
    rw [hw2]
    unfold updateMatchingTicket
    rw [htick, ht2]
    exact acceptWrite_idem w.tickets t.id w.nextSessionId
  have hsess2 : (handleAcceptTicketAndStartChat
        (handleAcceptTicketAndStartChat w true (some uid) t noFaults now).world
        true (some uid2) t2 noFaults now2).world.sessions =
      (handleAcceptTicketAndStartChat w true (some uid) t noFaults now).world.sessions := by
    rw [hw2]
    rfl
  refine ⟨hsess2, htick2, ?_, ?_, ?_, ?_⟩
  · unfold sessionsForTicket
    rw [hsess2]
    exact h2
  · intro tk htk hid
    rw [htick2, htick] at htk
    exact acceptWrite_fields w.tickets t.id w.nextSessionId tk htk hid
  · rw [h3]
  · rw [h3]
    rfl

/-- Witness for the C4 theorem at the concrete `world0`. -/
theorem accept_second_call_is_noop_witness :
    sessionsForTicket world0 sampleTicket.id = [] ∧
    sampleTicket.id = sampleTicket.id ∧
    ((handleAcceptTicketAndStartChat
        (handleAcceptTicketAndStartChat world0 true (some 7) sampleTicket noFaults 100).world
        true (some 8) sampleTicket noFaults 200).world.sessions =
      (handleAcceptTicketAndStartChat world0 true (some 7) sampleTicket noFaults 100).world.sessions ∧
     (handleAcceptTicketAndStartChat
        (handleAcceptTicketAndStartChat world0 true (some 7) sampleTicket noFaults 100).world
        true (some 8) sampleTicket noFaults 200).world.tickets =
      (handleAcceptTicketAndStartChat world0 true (some 7) sampleTicket noFaults 100).world.tickets ∧
     sessionsForTicket
      (handleAcceptTicketAndStartChat
        (handleAcceptTicketAndStartChat world0 true (some 7) sampleTicket noFaults 100).world
        true (some 8) sampleTicket noFaults 200).world sampleTicket.id = [freshSession world0 7 sampleTicket 100] ∧
     (∀ tk ∈ (handleAcceptTicketAndStartChat
        (handleAcceptTicketAndStartChat world0 true (some 7) sampleTicket noFaults 100).world
        true (some 8) sampleTicket noFaults 200).world.tickets,
       tk.id = sampleTicket.id → tk.status = TStatus.inProgress ∧ tk.liveChatId = some world0.nextSessionId) ∧
     (handleAcceptTicketAndStartChat
        (handleAcceptTicketAndStartChat world0 true (some 7) sampleTicket noFaults 100).world
        true (some 8) sampleTicket noFaults 200).toasts =
      [chatAlreadyActiveToast, ticketAcceptedToast sampleTicket.id] ∧
     (handleAcceptTicketAndStartChat
        (handleAcceptTicketAndStartChat world0 true (some 7) sampleTicket noFaults 100).world
        true (some 8) sampleTicket noFaults 200).navigation =
      some (View.liveChat world0.nextSessionId)) :=
  ⟨by decide, rfl,
   accept_second_call_is_noop world0 7 8 sampleTicket sampleTicket 100 200 (by decide) rfl⟩

/-- An open, unstaffed session whose customer 7 also happens to be the
acting admin (the only way the access check lets anyone reach an unstaffed
session). -/
def openUnstaffedSession : Session :=
  { id := 11, ticketId := some 1, customerId := 7, consultantId := none,
    status := SStatus.open_, createdAt := 90, startedAt := some 90,
    lastMessageAt := 90, closedAt := none }

/-- Reduction of the snapshot handler on a present document. -/
lemma sessionSnapshotStep_some (uid : Nat) (role : Role) (s : Session) (now : Nat) :
    sessionSnapshotStep uid role (some s) now =
      if s.customerId ≠ uid ∧ s.consultantId ≠ some uid then
        { toasts := [accessDeniedToast], navigation := some View.supportPortal,
          retainedSession := none, joinWrite := none }
      else
        { toasts := [], navigation := none, retainedSession := some s,
          joinWrite := if joinGuard role s then some (joinEffect uid now s) else none } := rfl

/-- Reduction of `applySessionOp` on the consultant-join op. -/
lemma applySessionOp_join (u : Nat) (r : Role) (n : Nat) (σ : Session) :
    applySessionOp (SessionOp.consultantJoins u r n) σ =
      if joinGuard r σ then joinEffect u n σ else σ := rfl

/-- Reduction of `applySessionOp` on the closing op. -/
lemma applySessionOp_close (n : Nat) (σ : Session) :
    applySessionOp (SessionOp.closeSession n) σ =
      { σ with status := SStatus.closed, closedAt := some n } := rfl

/-- Reduction of `applySessionOp` on the `lastMessageAt` op. -/
lemma applySessionOp_touch (n : Nat) (σ : Session) :
    applySessionOp (SessionOp.touchLastMessage n) σ = { σ with lastMessageAt := n } := rfl

/-- C5 — the consultant-join write fires only when the observed session has
status 'open', `consultantId` null and the current role is admin; it sets
`consultantId` to the admin's id, `startedAt` to now and status to
'in-progress'; and no session-document write of the program ever moves a set
`consultantId` back to null (or to any other value), so the null → set
transition happens at most once. -/
theorem consultant_join_guarded_and_stable
    (uid now : Nat) (role : Role) (s σ : Session) (sEff : Session)
    (op : SessionOp) (c : Nat)
    (hjoin : (sessionSnapshotStep uid role (some s) now).joinWrite = some sEff)
    (hset : σ.consultantId = some c) :
    role = Role.admin ∧ s.status = SStatus.open_ ∧ s.consultantId = none ∧
    sEff.consultantId = some uid ∧ sEff.startedAt = some now ∧
    sEff.status = SStatus.inProgress ∧
    (applySessionOp op σ).consultantId = some c := by
  have hguard : joinGuard role s = true ∧ sEff = joinEffect uid now s := by
    rw [sessionSnapshotStep_some] at hjoin
    by_cases hacc : s.customerId ≠ uid ∧ s.consultantId ≠ some uid
    · rw [if_pos hacc] at hjoin
      simp at hjoin
    · rw [if_neg hacc] at hjoin
      by_cases hg : joinGuard role s
      · rw [if_pos hg] at hjoin
        exact ⟨hg, (Option.some.injEq _ _ ▸ hjoin).symm⟩
      · rw [if_neg hg] at hjoin
        simp at hjoin
  obtain ⟨hg, hEff⟩ := hguard
  unfold joinGuard at hg
  simp only [Bool.and_eq_true, beq_iff_eq] at hg
  obtain ⟨⟨hrole, hopen⟩, hnull⟩ := hg
  have hnull' : s.consultantId = none := by
    cases hcs : s.consultantId with
    | none => rfl
    | some v => rw [hcs] at hnull; simp at hnull
  refine ⟨hrole, hopen, hnull', ?_, ?_, ?_, ?_⟩
  · rw [hEff]; rfl
  · rw [hEff]; rfl
  · rw [hEff]; rfl
  · cases op with
    | consultantJoins u r n =>
      rw [applySessionOp_join]
      have hng : joinGuard r σ = false := by
        unfold joinGuard
        rw [hset]
        simp
      rw [hng]
      simp only [Bool.false_eq_true, if_false]
      exact hset
    | closeSession n =>
      rw [applySessionOp_close]
      exact hset
    | touchLastMessage n =>
      rw [applySessionOp_touch]
      exact hset

/-- Witness for the C5 theorem: admin 7 (also the session's customer) joins
`openUnstaffedSession`; separately, closing `closedSession` keeps its
consultant 3. -/
theorem consultant_join_guarded_and_stable_witness :
    ((sessionSnapshotStep 7 Role.admin (some openUnstaffedSession) 100).joinWrite =
        some (joinEffect 7 100 openUnstaffedSession) ∧
     closedSession.consultantId = some 3) ∧
    (Role.admin = Role.admin ∧ openUnstaffedSession.status = SStatus.open_ ∧
     openUnstaffedSession.consultantId = none ∧
     (joinEffect 7 100 openUnstaffedSession).consultantId = some 7 ∧
     (joinEffect 7 100 openUnstaffedSession).startedAt = some 100 ∧
     (joinEffect 7 100 openUnstaffedSession).status = SStatus.inProgress ∧
     (applySessionOp (SessionOp.closeSession 5) closedSession).consultantId = some 3) :=
  ⟨⟨by decide, by decide⟩,
   consultant_join_guarded_and_stable 7 100 Role.admin openUnstaffedSession closedSession
     (joinEffect 7 100 openUnstaffedSession) (SessionOp.closeSession 5) 3
     (by decide) (by decide)⟩

/-- C6 — a user who is neither the session's customer nor its consultant is
denied: the Access-Denied toast is shown, the user is navigated away, the
session is not retained in component state, the message subscription is
never started, and no write is issued. -/
theorem access_denied_blocks_exposure
    (uid now : Nat) (role : Role) (s : Session)
    (h1 : s.customerId ≠ uid) (h2 : s.consultantId ≠ some uid) :
    (sessionSnapshotStep uid role (some s) now).toasts = [accessDeniedToast] ∧
    (sessionSnapshotStep uid role (some s) now).navigation = some View.supportPortal ∧
    (sessionSnapshotStep uid role (some s) now).retainedSession = none ∧
    messagesSubscribed (sessionSnapshotStep uid role (some s) now) = false ∧
    (sessionSnapshotStep uid role (some s) now).joinWrite = none := by
  unfold messagesSubscribed
  rw [sessionSnapshotStep_some, if_pos ⟨h1, h2⟩]
  exact ⟨rfl, rfl, rfl, rfl, rfl⟩

/-- Witness for the C6 theorem: user 9 is neither customer 2 nor consultant
3 of `closedSession`. -/
theorem access_denied_blocks_exposure_witness :
    (closedSession.customerId ≠ 9 ∧ closedSession.consultantId ≠ some 9) ∧
    ((sessionSnapshotStep 9 Role.customer (some closedSession) 100).toasts = [accessDeniedToast] ∧
     (sessionSnapshotStep 9 Role.customer (some closedSession) 100).navigation = some View.supportPortal ∧
     (sessionSnapshotStep 9 Role.customer (some closedSession) 100).retainedSession = none ∧
     messagesSubscribed (sessionSnapshotStep 9 Role.customer (some closedSession) 100) = false ∧
     (sessionSnapshotStep 9 Role.customer (some closedSession) 100).joinWrite = none) :=
  ⟨⟨by decide, by decide⟩,
   access_denied_blocks_exposure 9 100 Role.customer closedSession (by decide) (by decide)⟩

/-- Reduction of `handleEndChat` on present session and user. -/
lemma handleEndChat_some (w : World) (s : Session) (u : Nat) (role : Option Role)
    (confirmed : Bool) (f : EndFaults) (now : Nat) :
    handleEndChat w (some s) (some u) role confirmed f now =
      (if s.status = SStatus.closed then
        { world := w, toasts := [], navigation := none, unhandledRejection := false }
      else if role ≠ some Role.admin then
        { world := w, toasts := [permissionDeniedToast], navigation := none,
          unhandledRejection := false }
      else if !confirmed then
        { world := w, toasts := [], navigation := none, unhandledRejection := false }
      else if f.sessionUpdateFails then
        { world := w, toasts := [endChatFailedToast], navigation := none,
          unhandledRejection := false }
      else
        match s.ticketId with
        | some tid =>
          if f.ticketUpdateFails then
            { world := updateMatchingSession w s.id
                (fun ss => { ss with status := SStatus.closed, closedAt := some now }),
              toasts := [endChatFailedToast], navigation := none, unhandledRejection := false }
          else
            { world := updateMatchingTicket
                (updateMatchingSession w s.id
                  (fun ss => { ss with status := SStatus.closed, closedAt := some now }))
                tid (fun tk => { tk with status := TStatus.resolved }),
              toasts := [chatEndedToast],
              navigation := some (if role = some Role.admin then View.dashboard else View.knowledge),
              unhandledRejection := false }
        | none =>
          { world := updateMatchingSession w s.id
              (fun ss => { ss with status := SStatus.closed, closedAt := some now }),
            toasts := [chatEndedToast],
            navigation := some (if role = some Role.admin then View.dashboard else View.knowledge),
            unhandledRejection := false }) := by
  unfold handleEndChat
  rfl

/-- C7 — End chat: a non-admin attempt causes no writes (and, on a
non-closed session, shows a Permission-Denied notice); an already-closed
session causes no writes and no notice; on an admin's confirmed, fault-free
run the session is written closed (with `closedAt` = now) and, `ticketId`
being set, the ticket is written resolved, with the success notice; when the
session-close write succeeds but the ticket-resolve write fails, the session
stays closed, the ticket collection is untouched, and a failure notice
distinct from the success notice is shown. -/
theorem end_chat_guards_effect_and_partial_failure
    (wA : World) (sA : Session) (uA : Nat) (roleA : Option Role) (confA : Bool) (fA : EndFaults) (nowA : Nat)
    (wB : World) (sB : Session) (uB : Nat) (roleB : Option Role) (confB : Bool) (fB : EndFaults) (nowB : Nat)
    (wC : World) (sC : Session) (uC : Nat) (nowC : Nat) (tidC : Nat)
    (wD : World) (sD : Session) (uD : Nat) (nowD : Nat) (tidD : Nat)
    (hA1 : roleA ≠ some Role.admin) (hA2 : sA.status ≠ SStatus.closed)
    (hB1 : sB.status = SStatus.closed)
    (hC1 : sC.status ≠ SStatus.closed) (hC2 : sC.ticketId = some tidC)
    (hD1 : sD.status ≠ SStatus.closed) (hD2 : sD.ticketId = some tidD) :
    (handleEndChat wA (some sA) (some uA) roleA confA fA nowA).world = wA ∧
    (handleEndChat wA (some sA) (some uA) roleA confA fA nowA).toasts = [permissionDeniedToast] ∧
    (handleEndChat wB (some sB) (some uB) roleB confB fB nowB).world = wB ∧
    (handleEndChat wB (some sB) (some uB) roleB confB fB nowB).toasts = [] ∧
    (handleEndChat wC (some sC) (some uC) (some Role.admin) true noEndFaults nowC) =
      { world := updateMatchingTicket
          (updateMatchingSession wC sC.id
            (fun ss => { ss with status := SStatus.closed, closedAt := some nowC }))
          tidC (fun tk => { tk with status := TStatus.resolved }),
        toasts := [chatEndedToast], navigation := some View.dashboard,
        unhandledRejection := false } ∧
    (handleEndChat wD (some sD) (some uD) (some Role.admin) true ticketFailEndFaults nowD).world =
      updateMatchingSession wD sD.id
        (fun ss => { ss with status := SStatus.closed, closedAt := some nowD }) ∧
    (handleEndChat wD (some sD) (some uD) (some Role.admin) true ticketFailEndFaults nowD).world.tickets =
      wD.tickets ∧
    (handleEndChat wD (some sD) (some uD) (some Role.admin) true ticketFailEndFaults nowD).toasts =
      [endChatFailedToast] ∧
    endChatFailedToast ≠ chatEndedToast := by
  refine ⟨?_, ?_, ?_, ?_, ?_, ?_, ?_, ?_, by decide⟩
  · rw [handleEndChat_some, if_neg hA2, if_pos hA1]
  · rw [handleEndChat_some, if_neg hA2, if_pos hA1]
  · rw [handleEndChat_some, if_pos hB1]
  · rw [handleEndChat_some, if_pos hB1]
  · simp [handleEndChat_some, hC1, hC2, noEndFaults]
  · simp [handleEndChat_some, hD1, hD2, ticketFailEndFaults]
  · simp [handleEndChat_some, hD1, hD2, ticketFailEndFaults, updateMatchingSession]
  · simp [handleEndChat_some, hD1, hD2, ticketFailEndFaults]

/-- Witness for the C7 theorem across its four scenarios on concrete data. -/
theorem end_chat_guards_effect_and_partial_failure_witness :
    ((some Role.customer ≠ some Role.admin) ∧
     openUnstaffedSession.status ≠ SStatus.closed ∧
     closedSession.status = SStatus.closed ∧
     openUnstaffedSession.ticketId = some 1) ∧
    ((handleEndChat worldClosed (some openUnstaffedSession) (some 2) (some Role.customer) true noEndFaults 300).world = worldClosed ∧
     (handleEndChat worldClosed (some openUnstaffedSession) (some 2) (some Role.customer) true noEndFaults 300).toasts = [permissionDeniedToast] ∧
     (handleEndChat worldClosed (some closedSession) (some 3) (some Role.admin) true noEndFaults 300).world = worldClosed ∧
     (handleEndChat worldClosed (some closedSession) (some 3) (some Role.admin) true noEndFaults 300).toasts = [] ∧
     (handleEndChat world0 (some openUnstaffedSession) (some 7) (some Role.admin) true noEndFaults 300) =
       { world := updateMatchingTicket
           (updateMatchingSession world0 openUnstaffedSession.id
             (fun ss => { ss with status := SStatus.closed, closedAt := some 300 }))
           1 (fun tk => { tk with status := TStatus.resolved }),
         toasts := [chatEndedToast], navigation := some View.dashboard,
         unhandledRejection := false } ∧
     (handleEndChat world0 (some openUnstaffedSession) (some 7) (some Role.admin) true ticketFailEndFaults 300).world =
       updateMatchingSession world0 openUnstaffedSession.id
         (fun ss => { ss with status := SStatus.closed, closedAt := some 300 }) ∧
     (handleEndChat world0 (some openUnstaffedSession) (some 7) (some Role.admin) true ticketFailEndFaults 300).world.tickets =
       world0.tickets ∧
     (handleEndChat world0 (some openUnstaffedSession) (some 7) (some Role.admin) true ticketFailEndFaults 300).toasts =
       [endChatFailedToast] ∧
     endChatFailedToast ≠ chatEndedToast) :=
  ⟨⟨by decide, by decide, by decide, by decide⟩,
   end_chat_guards_effect_and_partial_failure
     worldClosed openUnstaffedSession 2 (some Role.customer) true noEndFaults 300
     worldClosed closedSession 3 (some Role.admin) true noEndFaults 300
     world0 openUnstaffedSession 7 300 1
     world0 openUnstaffedSession 7 300 1
     (by decide) (by decide) (by decide) (by decide) (by decide) (by decide) (by decide)⟩

/-- C8 — the counterexample input: when the initial session `getDocs` query
of Accept rejects, the rejection leaves `handleAcceptTicketAndStartChat` as
an unhandled rejection (the `await` is outside every `try`/`catch`), and no
toast is shown for it. -/
theorem acceptQueryFailureUnhandledCounterexample :
    (handleAcceptTicketAndStartChat world0 true (some 7) sampleTicket
        { queryFails := true, createFails := false, updateFails := false } 100).unhandledRejection = true ∧
    (handleAcceptTicketAndStartChat world0 true (some 7) sampleTicket
        { queryFails := true, createFails := false, updateFails := false } 100).toasts = [] := by
  decide

/-- C8 (amended) — every store-call failure inside `handleSendMessage`,
`handleEndChat` and `handleSaveEdit`, and the create/update failures of
Accept, are caught inside the operation (no unhandled rejection; e.g. a
failing message append yields the visible send-failure notice); the one
exception is Accept's initial session query, whose failure propagates as an
unhandled rejection whenever a user is logged in. -/
theorem store_failures_caught_except_accept_query
    (w : World) (raw : String) (al : Bool) (u : Option Nat) (ro : Option Role)
    (so : Option Session) (msgs : List ChatMessage) (sf : SendFaults) (now : Nat)
    (w2 : World) (s2 : Option Session) (u2 : Option Nat) (ro2 : Option Role)
    (conf : Bool) (ef : EndFaults) (now2 : Nat)
    (w3 : World) (appId3 : Bool) (te : Option Ticket) (e : EditFields) (uf : Bool)
    (w4 : World) (appId4 : Bool) (cu : Option Nat) (t4 : Ticket) (af : AcceptFaults) (now4 : Nat)
    (wS : World) (uS : Nat) (rS : Role) (sS : Session) (msgsS : List ChatMessage)
    (tfS : Bool) (nowS : Nat) (rawS : String)
    (hS : rawS ≠ "") :
    (handleSendMessage w raw al u ro so msgs sf now).unhandledRejection = false ∧
    (handleEndChat w2 s2 u2 ro2 conf ef now2).unhandledRejection = false ∧
    (handleSaveEdit w3 appId3 te e uf).unhandledRejection = false ∧
    (handleAcceptTicketAndStartChat w4 appId4 cu t4 af now4).unhandledRejection =
      (cu.isSome && appId4 && af.queryFails) ∧
    (handleSendMessage wS rawS false (some uS) (some rS) (some sS) msgsS
        { appendFails := true, touchFails := tfS } nowS).toasts = [sendFailedToast] := by
  refine ⟨?_, ?_, ?_, ?_, ?_⟩
  · unfold handleSendMessage
    repeat' split
    all_goals rfl
  · unfold handleEndChat
    repeat' split
    all_goals rfl
  · unfold handleSaveEdit
    repeat' split
    all_goals rfl
  · unfold handleAcceptTicketAndStartChat acceptTicketUpdate
    cases cu with
    | none => simp
    | some uid =>
      by_cases hap : appId4
      · by_cases hq : af.queryFails
        · simp [hap, hq]
        · simp only [hap, Bool.not_true, Bool.false_eq_true, if_false, hq]
          cases hhd : (sessionsForTicket w4 t4.id).head? <;>
            repeat' split
          all_goals simp [hap, hq]
      · simp [hap]
  · unfold handleSendMessage
    rw [if_neg hS]
    rfl

/-- Witness for the amended C8 theorem at concrete inputs. -/
theorem store_failures_caught_except_accept_query_witness :
    (("hi" : String) ≠ "") ∧
    ((handleSendMessage world0 "hi" false (some 2) (some Role.customer) (some closedSession) []
        { appendFails := false, touchFails := false } 100).unhandledRejection = false ∧
     (handleEndChat world0 (some closedSession) (some 3) (some Role.admin) true noEndFaults 100).unhandledRejection = false ∧
     (handleSaveEdit world0 true (some sampleTicket) regressEdit true).unhandledRejection = false ∧
     (handleAcceptTicketAndStartChat world0 true (some 7) sampleTicket
        { queryFails := true, createFails := false, updateFails := false } 100).unhandledRejection =
       ((some 7 : Option Nat).isSome && true &&
         (AcceptFaults.mk true false false).queryFails) ∧
     (handleSendMessage world0 "hi" false (some 2) (some Role.customer) (some closedSession) []
        { appendFails := true, touchFails := false } 100).toasts = [sendFailedToast]) :=
  ⟨by decide,
   store_failures_caught_except_accept_query
     world0 "hi" false (some 2) (some Role.customer) (some closedSession) []
       { appendFails := false, touchFails := false } 100
     world0 (some closedSession) (some 3) (some Role.admin) true noEndFaults 100
     world0 true (some sampleTicket) regressEdit true
     world0 true (some 7) sampleTicket { queryFails := true, createFails := false, updateFails := false } 100
     world0 2 Role.customer closedSession [] false 100 "hi"
     (by decide)⟩

/-- Reduction of the auto-redirect effect for a logged-in user. -/
lemma supportRedirect_some (tickets : List Ticket) (u : Nat) (current : Option View) :
    supportRedirect tickets (some u) current =
      (if tickets.isEmpty then []
       else
        match tickets.find? (redirectMatch u) with
        | none => []
        | some m =>
          match m.liveChatId with
          | none => []
          | some cid =>
            if current = some (View.liveChat cid) then [] else [View.liveChat cid]) := rfl

/-- C9 — the customer auto-redirect: when the ticket list contains a ticket
owned by the current user with status in-progress and a session
back-reference, the effect issues exactly one navigation to the (first such)
ticket's live-chat view, and issues none when the customer is already on
that view. -/
theorem customer_autoredirect_once
    (tickets : List Ticket) (u : Nat) (current : Option View) (t : Ticket)
    (hmem : t ∈ tickets) (hmatch : redirectMatch u t = true) :
    ∃ m cid, tickets.find? (redirectMatch u) = some m ∧ m.liveChatId = some cid ∧
      supportRedirect tickets (some u) current =
        (if current = some (View.liveChat cid) then [] else [View.liveChat cid]) := by
  have hfind : (tickets.find? (redirectMatch u)).isSome := by
    rw [List.find?_isSome]
    exact ⟨t, hmem, hmatch⟩
  have hne : tickets.isEmpty = false := by
    cases tickets with
    | nil => exact absurd hmem (List.not_mem_nil t)
    | cons a l => rfl
  rcases hm : tickets.find? (redirectMatch u) with _ | m
  · rw [hm] at hfind
    simp at hfind
  · have hpm : redirectMatch u m = true := List.find?_some hm
    have hcid : m.liveChatId.isSome := by
      unfold redirectMatch at hpm
      simp only [Bool.and_eq_true] at hpm
      exact hpm.2
    rcases hc : m.liveChatId with _ | cid
    · rw [hc] at hcid
      simp at hcid
    · refine ⟨m, cid, rfl, hc, ?_⟩
      rw [supportRedirect_some]
      simp only [hne, Bool.false_eq_true, if_false, hm, hc]

/-- Witness for the C9 theorem: the in-progress ticket of customer 2 with
session 5 triggers one navigation when customer 2 is elsewhere. -/
theorem customer_autoredirect_once_witness :
    (let t := { sampleTicket with status := TStatus.inProgress, liveChatId := some 5 };
     t ∈ [t] ∧ redirectMatch 2 t = true ∧
     (∃ m cid, List.find? (redirectMatch 2) [t] = some m ∧ m.liveChatId = some cid ∧
        supportRedirect [t] (some 2) (some View.supportPortal) =
          (if (some View.supportPortal : Option View) = some (View.liveChat cid) then []
           else [View.liveChat cid]))) :=
  ⟨by decide, by decide,
   customer_autoredirect_once
     [{ sampleTicket with status := TStatus.inProgress, liveChatId := some 5 }] 2
     (some View.supportPortal)
     { sampleTicket with status := TStatus.inProgress, liveChatId := some 5 }
     (by decide) (by decide)⟩

/-- Reduction of Accept for a logged-in user with `APP_ID` defined. -/
lemma handleAccept_some_reduce (w : World) (uid : Nat) (t : Ticket) (f : AcceptFaults) (now : Nat) :
    handleAcceptTicketAndStartChat w true (some uid) t f now =
      (if f.queryFails then
        { world := w, toasts := [], navigation := none, unhandledRejection := true }
      else
        match (sessionsForTicket w t.id).head? with
        | some s => acceptTicketUpdate w t s.id [chatAlreadyActiveToast] f
        | none =>
          if f.createFails then
            { world := w, toasts := [startChatFailedToast], navigation := none,
              unhandledRejection := false }
          else
            acceptTicketUpdate
              { w with sessions := w.sessions ++ [freshSession w uid t now],
                       nextSessionId := w.nextSessionId + 1 }
              t (freshSession w uid t now).id [liveChatCreatedToast t.id] f) := by
  unfold handleAcceptTicketAndStartChat
  rfl

/-- C10 — Accept issues its navigation only after full success: a navigation
implies the ticket update succeeded, the target is a live-chat view whose
session exists in the store afterwards, and every copy of the ticket was
written in-progress with that session as back-reference; conversely a failed
session creation (with no reusable session) or a failed ticket update leaves
the navigation unissued. -/
theorem accept_navigates_only_after_success
    (w : World) (uid : Nat) (t : Ticket) (f : AcceptFaults) (now : Nat) (v : View)
    (w2 : World) (uid2 : Nat) (t2 : Ticket) (f2 : AcceptFaults) (now2 : Nat)
    (w3 : World) (appId3 : Bool) (cu3 : Option Nat) (t3 : Ticket) (f3 : AcceptFaults) (now3 : Nat)
    (hnav : (handleAcceptTicketAndStartChat w true (some uid) t f now).navigation = some v)
    (h2q : f2.queryFails = false) (h2c : f2.createFails = true)
    (h2e : sessionsForTicket w2 t2.id = [])
    (h3 : f3.updateFails = true) :
    (f.updateFails = false ∧
     ∃ cid, v = View.liveChat cid ∧
       (∃ s ∈ (handleAcceptTicketAndStartChat w true (some uid) t f now).world.sessions, s.id = cid) ∧
       (∀ tk ∈ (handleAcceptTicketAndStartChat w true (some uid) t f now).world.tickets,
          tk.id = t.id → tk.status = TStatus.inProgress ∧ tk.liveChatId = some cid)) ∧
    (handleAcceptTicketAndStartChat w2 true (some uid2) t2 f2 now2).navigation = none ∧
    (handleAcceptTicketAndStartChat w3 appId3 cu3 t3 f3 now3).navigation = none := by
  refine ⟨?_, ?_, ?_⟩
  · rw [handleAccept_some_reduce] at hnav ⊢
    by_cases hq : f.queryFails
    · simp [hq] at hnav
    · simp only [hq, Bool.false_eq_true, if_false] at hnav ⊢
      rcases hhd : (sessionsForTicket w t.id).head? with _ | s
      · simp only [hhd] at hnav ⊢
        by_cases hcf : f.createFails
        · simp [hcf] at hnav
        · simp only [hcf, Bool.false_eq_true, if_false] at hnav ⊢
          unfold acceptTicketUpdate at hnav ⊢
          by_cases hu : f.updateFails
          · simp [hu] at hnav
          · simp only [hu, Bool.false_eq_true, if_false] at hnav ⊢
            refine ⟨by simp [hu], w.nextSessionId, ?_, ?_, ?_⟩
            · have := Option.some.inj hnav
              exact this.symm
            · refine ⟨freshSession w uid t now, ?_, rfl⟩
              show freshSession w uid t now ∈
                (updateMatchingTicket { w with sessions := w.sessions ++ [freshSession w uid t now], nextSessionId := w.nextSessionId + 1 } t.id _).sessions
              unfold updateMatchingTicket
              simp
            · intro tk htk hid
              exact acceptWrite_fields w.tickets t.id w.nextSessionId tk htk hid
      · simp only [hhd] at hnav ⊢
        unfold acceptTicketUpdate at hnav ⊢
        by_cases hu : f.updateFails
        · simp [hu] at hnav
        · simp only [hu, Bool.false_eq_true, if_false] at hnav ⊢
          refine ⟨by simp [hu], s.id, ?_, ?_, ?_⟩
          · have := Option.some.inj hnav
            exact this.symm
          · refine ⟨s, ?_, rfl⟩
            show s ∈ (updateMatchingTicket w t.id _).sessions
            have hmem : s ∈ w.sessions.filter (fun ss => ss.ticketId == some t.id) :=
              mem_of_head_eq hhd
            exact (List.mem_filter.mp hmem).1
          · intro tk htk hid
            exact acceptWrite_fields w.tickets t.id s.id tk htk hid
  · rw [handleAccept_some_reduce]
    simp only [h2q, Bool.false_eq_true, if_false, h2e, List.head?_nil, h2c, if_true]
  · unfold handleAcceptTicketAndStartChat acceptTicketUpdate
    repeat' split
    all_goals rfl

/-- Witness for the C10 theorem at concrete inputs. -/
theorem accept_navigates_only_after_success_witness :
    ((handleAcceptTicketAndStartChat world0 true (some 7) sampleTicket noFaults 100).navigation =
        some (View.liveChat 10) ∧
     (AcceptFaults.mk false true false).queryFails = false ∧
     (AcceptFaults.mk false true false).createFails = true ∧
     sessionsForTicket world0 sampleTicket.id = [] ∧
     (AcceptFaults.mk false false true).updateFails = true) ∧
    ((noFaults.updateFails = false ∧
      ∃ cid, View.liveChat 10 = View.liveChat cid ∧
        (∃ s ∈ (handleAcceptTicketAndStartChat world0 true (some 7) sampleTicket noFaults 100).world.sessions, s.id = cid) ∧
        (∀ tk ∈ (handleAcceptTicketAndStartChat world0 true (some 7) sampleTicket noFaults 100).world.tickets,
           tk.id = sampleTicket.id → tk.status = TStatus.inProgress ∧ tk.liveChatId = some cid)) ∧
     (handleAcceptTicketAndStartChat world0 true (some 8) sampleTicket (AcceptFaults.mk false true false) 200).navigation = none ∧
     (handleAcceptTicketAndStartChat world0 true (some 9) sampleTicket (AcceptFaults.mk false false true) 300).navigation = none) :=
  ⟨⟨by decide, rfl, rfl, by decide, rfl⟩,
   accept_navigates_only_after_success
     world0 7 sampleTicket noFaults 100 (View.liveChat 10)
     world0 8 sampleTicket (AcceptFaults.mk false true false) 200
     world0 true (some 9) sampleTicket (AcceptFaults.mk false false true) 300
     (by decide) rfl rfl (by decide) rfl⟩

end SupportPortal
